import Mathlib

/-!
Verification of the storage byte-stream core of the Aries repository
(`storage/base.py`): mode parsing and capability gating in `StorageIOBase`,
offset arithmetic in `StorageIOSeekable`, and the local-mirror engine of the
cloud IO class (`CloudStorageIO` in the source, embedded here as
`CloudStorageIo`).

Python exceptions are embedded as an error type returned through `Except`.
Byte strings are embedded as `List Nat` (one `Nat` per byte); none of the
verified properties depend on bytes being bounded.
-/

/-- Errors raised by the storage core.  `invalidMode` and `valueError` are both
Python `ValueError`s (kept apart because the spec distinguishes InvalidMode
from InvalidArgument); `typeError` is Python `TypeError`; `notFound` covers
`FileNotFoundError`/NotFound; `uploadFailed` stands for whatever exception the
remote client's `upload` raises; `osError` is the `OSError` of an invalid
local seek; `fileExistsError` is the `FileExistsError` of an exclusive-create
open on an existing file. -/
inductive Err where
  | invalidMode
  | unsupportedOperation
  | notFound
  | valueError
  | typeError
  | notImplemented
  | uploadFailed
  | osError
  | fileExistsError
deriving Repr, DecidableEq

/-- The four capability attributes set by `StorageIOBase._set_mode`
(`_created`, `_readable`, `_writable`, `_appending`).  They are initialized to
`false` in `__init__` and only ever switched on by `_set_mode`. -/
structure ModeFlags where
  created : Bool := false
  readable : Bool := false
  writable : Bool := false
  appending : Bool := false
deriving Repr, DecidableEq

/-- The part of a `StorageIOBase` handle's state consulted by `readable()` and
`writable()`: the mode-derived flags and the `_closed` attribute. -/
structure HandleState where
  flags : ModeFlags
  closed : Bool
deriving Repr, DecidableEq

/-- Embedding of `StorageIOBase._set_mode`.  The source first checks
`set(mode) <= set('xrwab+')`, then that the occurrences of characters from
`rwax` sum to exactly 1 and `+` occurs at most once, and finally switches on
flags starting from the handle's current flags `fl` (the source never resets
the attributes to `False`, so flags accumulate across calls).  The source also
assigns `self._mode = mode` before validating; that assignment is modelled at
the call site (`openHandle`). -/
def StorageIOBase.set_mode (fl : ModeFlags) (mode : List Char) : Except Err ModeFlags :=
  if !(mode.all fun c => ['x', 'r', 'w', 'a', 'b', '+'].contains c) then
    .error .invalidMode
  else if !((mode.countP fun c => ['r', 'w', 'a', 'x'].contains c) == 1) ||
          mode.count '+' > 1 then
    .error .invalidMode
  else
    let f1 :=
      if mode.contains 'x' then { fl with created := true, writable := true }
      else if mode.contains 'r' then { fl with readable := true }
      else if mode.contains 'w' then { fl with writable := true }
      else if mode.contains 'a' then { fl with writable := true, appending := true }
      else fl
    .ok (if mode.contains '+' then { f1 with readable := true, writable := true } else f1)

/-- Embedding of `StorageIOBase.readable`: returns `_readable` and ignores
`_closed`. -/
def StorageIOBase.readable (s : HandleState) : Bool :=
  s.flags.readable

/-- Embedding of `StorageIOBase.writable`: `True if self._writable and not
self._closed else False`. -/
def StorageIOBase.writable (s : HandleState) : Bool :=
  s.flags.writable && !s.closed

/-- Embedding of `StorageIOBase.read`: `_check_readable` raises
`UnsupportedOperation` when `readable()` is false, and otherwise the abstract
base raises `NotImplementedError`.  The base method always raises, so the
embedding returns the error directly. -/
def StorageIOBase.read (s : HandleState) : Err :=
  if StorageIOBase.readable s then .notImplemented else .unsupportedOperation

/-- Embedding of `StorageIOBase.write`: `_check_writable` then
`NotImplementedError`. -/
def StorageIOBase.write (s : HandleState) : Err :=
  if StorageIOBase.writable s then .notImplemented else .unsupportedOperation

/-- Embedding of `StorageIOBase._is_same_mode`: `not self.mode` is truthy for
both `None` and the empty string, so those give false; otherwise compare
sorted character multisets (here: permutation test), with an empty requested
mode counting as "same". -/
def StorageIOBase.is_same_mode (cur : Option (List Char)) (m : List Char) : Bool :=
  match cur with
  | none => false
  | some cs =>
    if cs.isEmpty then false
    else if !m.isEmpty then cs.isPerm m
    else true

/-- Mode-string validity as the amended claim states it: characters drawn from
`{x, r, w, a, b, +}`, exactly one occurrence of a character from
`{x, r, w, a}`, and at most one `+`. -/
def modeValid (mode : List Char) : Bool :=
  (mode.all fun c => ['x', 'r', 'w', 'a', 'b', '+'].contains c) &&
    ((mode.countP fun c => ['r', 'w', 'a', 'x'].contains c) == 1) &&
    mode.count '+' ≤ 1

/-- The capability flags the (amended) claim predicts for a valid mode parsed
on a fresh handle: `x` gives created+writable, `r` gives readable, `w` gives
writable, `a` gives writable+appending, and `+` adds both readable and
writable. -/
def modeSpecFlags (mode : List Char) : ModeFlags :=
  { created := mode.contains 'x'
    readable := mode.contains 'r' || mode.contains '+'
    writable := mode.contains 'x' || mode.contains 'w' || mode.contains 'a' ||
      mode.contains '+'
    appending := mode.contains 'a' }

theorem contains_true_iff_mem (l : List Char) (c : Char) :
    l.contains c = true ↔ c ∈ l := by
  simp [List.contains, List.elem_iff]

theorem countP_one_excludes (mode : List Char) (c d : Char)
    (h : (mode.countP fun x => ['r', 'w', 'a', 'x'].contains x) = 1)
    (hc : (['r', 'w', 'a', 'x'].contains c) = true)
    (hd : (['r', 'w', 'a', 'x'].contains d) = true)
    (hne : c ≠ d) (hcm : c ∈ mode) :
    d ∉ mode := by
  intro hdm
  obtain ⟨s, t, rfl⟩ := List.append_of_mem hcm
  rw [List.countP_append, List.countP_cons, hc, if_pos rfl] at h
  have hds : d ∈ s ∨ d ∈ t := by
    rcases List.mem_append.mp hdm with hmem | hmem
    · exact .inl hmem
    · rcases List.mem_cons.mp hmem with hmem | hmem
      · exact absurd hmem.symm hne
      · exact .inr hmem
  rcases hds with hmem | hmem
  · have hpos : 0 < s.countP fun x => ['r', 'w', 'a', 'x'].contains x :=
      List.countP_pos_iff.mpr ⟨d, hmem, hd⟩
    omega
  · have hpos : 0 < t.countP fun x => ['r', 'w', 'a', 'x'].contains x :=
      List.countP_pos_iff.mpr ⟨d, hmem, hd⟩
    omega

/-- Claim C10: `readable()` ignores the `closed` flag entirely (a closed
handle whose mode granted read still reports readable), while `writable()` is
false on every closed handle and equals the mode-derived flag only while
open.  The two capability queries are asymmetric in the closed state. -/
theorem readable_writable_closed_asymmetry (s : HandleState) :
    StorageIOBase.readable { s with closed := true } =
      StorageIOBase.readable { s with closed := false } ∧
    StorageIOBase.readable s = s.flags.readable ∧
    StorageIOBase.writable { s with closed := true } = false ∧
    StorageIOBase.writable { s with closed := false } = s.flags.writable := by
  refine ⟨rfl, rfl, ?_, ?_⟩ <;> simp [StorageIOBase.writable]

/-- Claim C3, counterexample: the mode string `"rb"` parses successfully in
the source (the allowed character set is `xrwab+`), although its character
`b` is outside the claim's alphabet `{x, r, w, a, +}`, under which the claim
predicts rejection. -/
theorem mode_rb_refutes_claimed_alphabet :
    (StorageIOBase.set_mode {} ['r', 'b']).isOk = true ∧
    (['r', 'b'].all fun c => ['x', 'r', 'w', 'a', '+'].contains c) = false :=
  ⟨rfl, rfl⟩

/-- Claim C3 as amended: parsing on a fresh handle succeeds iff the characters
are drawn from `{x, r, w, a, b, +}` (`b` is accepted and sets no flag),
characters from `{x, r, w, a}` occur exactly once in total, and `+` occurs at
most once; on success the flags are exactly `created = x present`,
`readable = r or + present`, `writable = x, w, a or + present`,
`appending = a present`; otherwise parsing fails with the invalid-mode
error. -/
theorem set_mode_amended (mode : List Char) :
    StorageIOBase.set_mode {} mode =
      (if modeValid mode then .ok (modeSpecFlags mode) else .error .invalidMode) := by
  by_cases h1 : (mode.all fun c => ['x', 'r', 'w', 'a', 'b', '+'].contains c) = true
  · by_cases h2 : (mode.countP fun c => ['r', 'w', 'a', 'x'].contains c) = 1
    · by_cases h3 : mode.count '+' ≤ 1
      · have hB : ((mode.countP fun c => ['r', 'w', 'a', 'x'].contains c) == 1) = true :=
          beq_iff_eq.mpr h2
        have hC : decide (mode.count '+' ≤ 1) = true := decide_eq_true h3
        have hD : decide (mode.count '+' > 1) = false := decide_eq_false (by omega)
        simp only [StorageIOBase.set_mode, modeValid, modeSpecFlags, h1, hB, hC, hD,
          Bool.not_true, Bool.false_or, Bool.and_true, Bool.true_and, Bool.and_self,
          Bool.not_false, if_false, if_true, Bool.false_eq_true, ite_false, ite_true]
        by_cases hx : 'x' ∈ mode
        · have hr : 'r' ∉ mode := countP_one_excludes mode 'x' 'r' h2 rfl rfl (by decide) hx
          have hw : 'w' ∉ mode := countP_one_excludes mode 'x' 'w' h2 rfl rfl (by decide) hx
          have ha : 'a' ∉ mode := countP_one_excludes mode 'x' 'a' h2 rfl rfl (by decide) hx
          have hx' := (contains_true_iff_mem mode 'x').mpr hx
          have hr' : mode.contains 'r' = false := by
            rw [← Bool.not_eq_true, contains_true_iff_mem]; exact hr
          have hw' : mode.contains 'w' = false := by
            rw [← Bool.not_eq_true, contains_true_iff_mem]; exact hw
          have ha' : mode.contains 'a' = false := by
            rw [← Bool.not_eq_true, contains_true_iff_mem]; exact ha
          by_cases hp : '+' ∈ mode <;>
            simp [hx, hr, hw, ha, hp, hx', hr', hw', ha']
        · have hx' : mode.contains 'x' = false := by
            rw [← Bool.not_eq_true, contains_true_iff_mem]; exact hx
          by_cases hr : 'r' ∈ mode
          · have hw : 'w' ∉ mode := countP_one_excludes mode 'r' 'w' h2 rfl rfl (by decide) hr
            have ha : 'a' ∉ mode := countP_one_excludes mode 'r' 'a' h2 rfl rfl (by decide) hr
            have hr' := (contains_true_iff_mem mode 'r').mpr hr
            have hw' : mode.contains 'w' = false := by
              rw [← Bool.not_eq_true, contains_true_iff_mem]; exact hw
            have ha' : mode.contains 'a' = false := by
              rw [← Bool.not_eq_true, contains_true_iff_mem]; exact ha
            by_cases hp : '+' ∈ mode <;>
              simp [hx, hr, hw, ha, hp, hx', hr', hw', ha']
          · have hr' : mode.contains 'r' = false := by
              rw [← Bool.not_eq_true, contains_true_iff_mem]; exact hr
            by_cases hw : 'w' ∈ mode
            · have ha : 'a' ∉ mode := countP_one_excludes mode 'w' 'a' h2 rfl rfl (by decide) hw
              have hw' := (contains_true_iff_mem mode 'w').mpr hw
              have ha' : mode.contains 'a' = false := by
                rw [← Bool.not_eq_true, contains_true_iff_mem]; exact ha
              by_cases hp : '+' ∈ mode <;>
                simp [hx, hr, hw, ha, hp, hx', hr', hw', ha']
            · have hw' : mode.contains 'w' = false := by
                rw [← Bool.not_eq_true, contains_true_iff_mem]; exact hw
              by_cases ha : 'a' ∈ mode
              · have ha' := (contains_true_iff_mem mode 'a').mpr ha
                by_cases hp : '+' ∈ mode <;>
                  simp [hx, hr, hw, ha, hp, hx', hr', hw', ha']
              · exfalso
                have hpos : 0 < mode.countP fun c => ['r', 'w', 'a', 'x'].contains c := by
                  omega
                obtain ⟨e, hem, hep⟩ := List.countP_pos_iff.mp hpos
                have he : e ∈ (['r', 'w', 'a', 'x'] : List Char) :=
                  (contains_true_iff_mem _ e).mp hep
                have : e = 'r' ∨ e = 'w' ∨ e = 'a' ∨ e = 'x' := by
                  simpa using he
                rcases this with rfl | rfl | rfl | rfl
                · exact hr hem
                · exact hw hem
                · exact ha hem
                · exact hx hem
      · have hC : decide (mode.count '+' ≤ 1) = false := decide_eq_false h3
        have hD : decide (mode.count '+' > 1) = true := decide_eq_true (by omega)
        have hB : ((mode.countP fun c => ['r', 'w', 'a', 'x'].contains c) == 1) = true :=
          beq_iff_eq.mpr h2
        simp [StorageIOBase.set_mode, modeValid, h1, hB, hC, hD]
    · have hB : ((mode.countP fun c => ['r', 'w', 'a', 'x'].contains c) == 1) = false := by
        rw [beq_eq_false_iff_ne]
        exact h2
      have hv : modeValid mode = false := by
        simp only [modeValid, Bool.and_eq_false_iff]
        left
        right
        exact hB
      rw [hv]
      unfold StorageIOBase.set_mode
      rw [h1, hB]
      simp
  · have hA : (mode.all fun c => ['x', 'r', 'w', 'a', 'b', '+'].contains c) = false :=
      Bool.eq_false_iff.mpr h1
    have hv : modeValid mode = false := by
      simp only [modeValid, Bool.and_eq_false_iff]
      left
      left
      exact hA
    rw [hv]
    unfold StorageIOBase.set_mode
    rw [hA]
    simp

/-- A Python value passed as a seek position: either an `int` or something
else (`_seek` type-checks `pos` with `isinstance(pos, int)` and raises
`TypeError` otherwise). -/
inductive PyVal where
  | int : Int → PyVal
  | notAnInt : PyVal
deriving Repr, DecidableEq

/-- The open local `FileIO` handle wrapped by the cloud IO object
(`self.__file_io`): its cursor and the capability/append flags derived from
the restricted local mode string.  The bytes live on disk
(`CloudState.tempOnDisk`), through which this handle reads and writes.  This
models CPython's `FileIO` as far as the flows exercised here need: `read`
demands the readable flag, `write` the writable flag (each raising
`UnsupportedOperation` otherwise), append-mode handles open positioned at
end-of-file and their writes always go to end-of-file, exclusive-create mode
on an existing file raises `FileExistsError` at open, and `seek` moves the
cursor. -/
structure LocalFile where
  pos : Nat
  readable : Bool
  writable : Bool
  append : Bool
deriving Repr, DecidableEq

/-- State of a cloud IO handle (class `CloudStorageIO` of the source,
rendered `CloudStorageIo` here).  `remote` is the remote object: `none` when
it does not exist, otherwise its bytes.  `tempPathSet` models
`self.temp_path is not None`; `tempOnDisk` is the temp file as it exists on
the local filesystem (`none` after `os.unlink`).  The remote client the
source leaves abstract (`exists`, `get_size`, `read_bytes`, `upload`,
`download`) is modelled from the spec against the `remote` field; see the
accessors below. -/
structure CloudState where
  flags : ModeFlags
  modeChars : Option (List Char)
  closed : Bool
  offset : Nat
  fileIo : Option LocalFile
  tempPathSet : Bool
  tempOnDisk : Option (List Nat)
  remote : Option (List Nat)
deriving Repr, DecidableEq

/-- Modelled from the spec: the remote client's `exists() -> bool`
(`CloudStorageIO.exists` is abstract in the source). -/
def CloudStorageIo.remoteExists (s : CloudState) : Bool :=
  s.remote.isSome

/-- Modelled from the spec: the remote client's `getSize() -> integer | fails
with NotFound` (`CloudStorageIO.get_size` is abstract in the source). -/
def CloudStorageIo.get_size (s : CloudState) : Except Err Nat :=
  match s.remote with
  | none => .error .notFound
  | some c => .ok c.length

/-- Modelled from the spec: the remote client's `readRange(start, end) ->
bytes`, an inclusive 0-indexed byte span of the remote object
(`CloudStorageIO.read_bytes` is abstract in the source).  The span is clipped
to the object's actual extent. -/
def CloudStorageIo.read_bytes (s : CloudState) (start stop : Nat) : List Nat :=
  ((s.remote.getD []).drop start).take (stop + 1 - start)

/-- Embedding of the `size` property of the cloud IO class.  The source reads
`os.fstat(self.__file_io.fileno).st_size` when a local handle exists: `fileno`
is referenced without being called, so `os.fstat` receives a bound method
instead of a file descriptor and raises `TypeError`.  Without a local handle
it returns `self.get_size()`. -/
def CloudStorageIo.size (s : CloudState) : Except Err Nat :=
  match s.fileIo with
  | some _ => .error .typeError
  | none => CloudStorageIo.get_size s

/-- Embedding of `StorageIOSeekable._seek`, the pure-offset seek used while
no local mirror exists.  `size` is the value of the polymorphic `self.size`
lookup (an `Except` because the lookup may raise). -/
def StorageIOSeekable.seekOffset (offset : Nat) (size : Except Err Nat)
    (pos : PyVal) (whence : Int) : Except Err Nat :=
  match pos with
  | .notAnInt => .error .typeError
  | .int p =>
    if whence = 0 then
      if p < 0 then .error .valueError else .ok p.toNat
    else if whence = 1 then
      .ok (max 0 ((offset : Int) + p)).toNat
    else if whence = 2 then
      match size with
      | .error e => .error e
      | .ok n => .ok (max 0 ((n : Int) + p)).toNat
    else .error .valueError

/-- Embedding of `CloudStorageIO.tell`: with a local handle it refreshes
`_offset` from the handle's cursor; otherwise it returns `_offset`. -/
def CloudStorageIo.tell (s : CloudState) : Nat × CloudState :=
  match s.fileIo with
  | some f => (f.pos, { s with offset := f.pos })
  | none => (s.offset, s)

/-- Embedding of `CloudStorageIO.seek`: with a local handle, delegates to the
local `FileIO.seek` (whence 0/1/2 relative to start/cursor/local file size;
negative targets and invalid whence values raise `OSError(EINVAL)` from
`os.lseek`) and refreshes `_offset`; otherwise delegates to the pure-offset
`_seek` with `self.size` as the end reference. -/
def CloudStorageIo.seek (s : CloudState) (pos : PyVal) (whence : Int) :
    Except Err Nat × CloudState :=
  match s.fileIo with
  | some f =>
    match pos with
    | .notAnInt => (.error .typeError, s)
    | .int p =>
      let tgt : Except Err Int :=
        if whence = 0 then .ok p
        else if whence = 1 then .ok ((f.pos : Int) + p)
        else if whence = 2 then .ok (((s.tempOnDisk.getD []).length : Int) + p)
        else .error .osError
      match tgt with
      | .error e => (.error e, s)
      | .ok n =>
        if n < 0 then (.error .osError, s)
        else (.ok n.toNat, { s with fileIo := some { f with pos := n.toNat }, offset := n.toNat })
  | none =>
    match StorageIOSeekable.seekOffset s.offset (CloudStorageIo.size s) pos whence with
    | .error e => (.error e, s)
    | .ok n => (.ok n, { s with offset := n })

/-- Embedding of `CloudStorageIO.local`: materializes the local mirror if it
does not exist yet.  A fresh temp file is created (`NamedTemporaryFile` with
`delete=False`); if the remote object exists and the mode contains `a` or
`+`, the remote content is downloaded into it; the temp file is then closed
and reopened with `FileIO` under the mode restricted to characters in
`rw+ax`.  Because the temp file already exists on disk at that point, a
restricted mode containing `x` makes the exclusive-create `FileIO` raise
`FileExistsError`: the exception propagates with `self.__file_io` and
`self.temp_path` still unset (their assignments come after), so the handle's
state is unchanged — the freshly created temp file is orphaned on disk,
unreachable through `temp_path`, and is not tracked by this model.  On
success, `w` truncates, and append-mode handles start positioned at
end-of-file (CPython `FileIO` seeks to the end when opened appending). -/
def CloudStorageIo.localCopy (s : CloudState) : Except Err CloudState :=
  match s.fileIo with
  | some _ => .ok s
  | none =>
    let m := s.modeChars.getD []
    let downloaded : List Nat :=
      if CloudStorageIo.remoteExists s && (m.contains 'a' || m.contains '+') then
        s.remote.getD []
      else []
    let lm := m.filter fun c => ['r', 'w', '+', 'a', 'x'].contains c
    if lm.contains 'x' then .error .fileExistsError
    else
      let disk := if lm.contains 'w' then [] else downloaded
      .ok { s with
        fileIo := some
          { pos := if lm.contains 'a' then disk.length else 0
            readable := lm.contains 'r' || lm.contains '+'
            writable := lm.contains 'w' || lm.contains 'a' || lm.contains '+'
            append := lm.contains 'a' }
        tempPathSet := true
        tempOnDisk := some disk }

/-- Embedding of `CloudStorageIO.read`.  Returns the result (bytes or raised
error), the successor state, and the inclusive remote range handed to
`read_bytes` when a remote ranged read was issued (`none` otherwise).  With a
local handle: `tell`, local seek to that position, local read.  Without one:
not-found check, empty on zero size, empty when the offset exceeds the size,
otherwise `end = size-1` overridden to `start+size-1` whenever a truthy
`size` argument was given, then `read_bytes(start, end)`.  Finally `_offset`
is advanced by the bytes returned. -/
def CloudStorageIo.read (s : CloudState) (size : Option Nat) :
    Except Err (List Nat) × CloudState × Option (Nat × Nat) :=
  match s.fileIo with
  | some f =>
    let start := f.pos
    let s0 := { s with offset := start }
    if f.readable then
      let disk := s0.tempOnDisk.getD []
      let b := match size with
        | none => disk.drop start
        | some n => (disk.drop start).take n
      (.ok b, { s0 with fileIo := some { f with pos := start + b.length },
                        offset := start + b.length }, none)
    else
      (.error .unsupportedOperation, s0, none)
  | none =>
    if !CloudStorageIo.remoteExists s then
      (.error .notFound, s, none)
    else
      let start := s.offset
      let fileSize := (s.remote.getD []).length
      if fileSize = 0 then (.ok [], s, none)
      else if start > fileSize then (.ok [], s, none)
      else
        let stop := match size with
          | some n => if n ≠ 0 then start + n - 1 else fileSize - 1
          | none => fileSize - 1
        let b := CloudStorageIo.read_bytes s start stop
        (.ok b, { s with offset := start + b.length }, some (start, stop))

/-- Overwrite `b` into `c` starting at position `p`, zero-filling any gap
between the end of `c` and `p` (plain, non-append local file write). -/
def writeAt (c : List Nat) (p : Nat) (b : List Nat) : List Nat :=
  c.take p ++ List.replicate (p - c.length) 0 ++ b ++ c.drop (p + b.length)

/-- Embedding of `CloudStorageIO.write`: raises `ValueError` on a closed
handle, ensures the mirror exists via `local()` (whose `FileExistsError` for
exclusive-create modes propagates, leaving the handle unchanged), seeks the
local handle to `tell()` and writes through it (the local handle raises
`UnsupportedOperation` when it lacks the writable flag; append-mode handles
write at end-of-file), then advances `_offset` by the bytes written. -/
def CloudStorageIo.write (s : CloudState) (b : List Nat) :
    Except Err Nat × CloudState :=
  if s.closed then (.error .valueError, s)
  else
    match CloudStorageIo.localCopy s with
    | .error e => (.error e, s)
    | .ok s1 =>
      match s1.fileIo with
      | none => (.error .notImplemented, s1)
      | some f =>
        let start := f.pos
        let s2 := { s1 with offset := start }
        if f.writable then
          let disk := s2.tempOnDisk.getD []
          let disk1 := if f.append then disk ++ b else writeAt disk start b
          let newPos := if f.append then disk1.length else start + b.length
          (.ok b.length,
           { s2 with tempOnDisk := some disk1,
                     fileIo := some { f with pos := newPos },
                     offset := start + b.length })
        else
          (.error .unsupportedOperation, s2)

/-- Embedding of `CloudStorageIO.__rm_temp`: unlink the temp file when the
path attribute is set and the file exists, then clear the attribute. -/
def CloudStorageIo.rmTemp (s : CloudState) : CloudState :=
  if s.tempPathSet && s.tempOnDisk.isSome then
    { s with tempOnDisk := none, tempPathSet := false }
  else
    { s with tempPathSet := false }

/-- Embedding of `CloudStorageIO.close`.  `uploadOk` says whether the remote
client's `upload` call succeeds; when it raises, the exception propagates out
of `close` before `__rm_temp` and before `_closed` is assigned.  Note that
the source assigns `self._closed = True` only inside the `if self.temp_path:`
branch. -/
def CloudStorageIo.close (s : CloudState) (uploadOk : Bool) :
    Except Err Unit × CloudState :=
  if s.closed then (.ok (), s)
  else
    let s1 := match s.fileIo with
      | some _ => { s with fileIo := none }
      | none => s
    if s1.tempPathSet then
      if uploadOk then
        let s2 := { s1 with remote := some (s1.tempOnDisk.getD []) }
        let s3 := CloudStorageIo.rmTemp s2
        (.ok (), { s3 with closed := true })
      else
        (.error .uploadFailed, s1)
    else
      (.ok (), s1)

/-- Embedding of `CloudStorageIO.open`: closes any open session first, runs
the base `open` (which re-parses the mode unless it is the same multiset of
characters, assigning `self._mode` before validation), clears `_closed`,
seeks to 0, then seeks to end-of-object for append modes or eagerly
materializes the mirror for plain-write modes. -/
def CloudStorageIo.openHandle (s : CloudState) (mode : List Char)
    (uploadOk : Bool) : Except Err Unit × CloudState :=
  let closeStep : Except Err Unit × CloudState :=
    if s.closed = false then CloudStorageIo.close s uploadOk else (.ok (), s)
  match closeStep with
  | (.error e, s1) => (.error e, s1)
  | (.ok _, s1) =>
    let modeStep : Except Err CloudState :=
      if StorageIOBase.is_same_mode s1.modeChars mode then
        .ok { s1 with closed := false }
      else
        match StorageIOBase.set_mode s1.flags mode with
        | .error e => .error e
        | .ok fl => .ok { s1 with modeChars := some mode, flags := fl, closed := false }
    match modeStep with
    | .error e => (.error e, { s1 with modeChars := some mode })
    | .ok s2 =>
      match CloudStorageIo.seek s2 (.int 0) 0 with
      | (.error e, s3) => (.error e, s3)
      | (.ok _, s3) =>
        if (s3.modeChars.getD []).contains 'a' then
          match CloudStorageIo.seek s3 (.int 0) 2 with
          | (.error e, s4) => (.error e, s4)
          | (.ok _, s4) => (.ok (), s4)
        else if (s3.modeChars.getD []).contains 'w' then
          match CloudStorageIo.localCopy s3 with
          | .error e => (.error e, s3)
          | .ok s4 => (.ok (), s4)
        else
          (.ok (), s3)

/-- The state of a freshly constructed handle (`__init__`): closed, no flags,
offset 0, no local handle, no temp file, over the given remote object. -/
def freshState (remote : Option (List Nat)) : CloudState :=
  { flags := {}
    modeChars := none
    closed := true
    offset := 0
    fileIo := none
    tempPathSet := false
    tempOnDisk := none
    remote := remote }

/-- Claim C8: for a handle in the non-mirrored state, seek with whence 0
requires a nonnegative position and sets the offset to it; whence 1 sets the
offset to `max 0 (offset+pos)`; whence 2 sets it to `max 0 (size+pos)` and
fails with NotFound when the remote object does not exist; any other whence
fails with the invalid-argument error; a non-integer position fails with
TypeError. -/
theorem seek_non_mirrored_spec (s : CloudState) (p : Int) (w : Int)
    (hf : s.fileIo = none) :
    (CloudStorageIo.seek s (.int p) 0 =
      if p < 0 then (.error .valueError, s)
      else (.ok p.toNat, { s with offset := p.toNat })) ∧
    (CloudStorageIo.seek s (.int p) 1 =
      (.ok (max 0 ((s.offset : Int) + p)).toNat,
       { s with offset := (max 0 ((s.offset : Int) + p)).toNat })) ∧
    (∀ c, s.remote = some c → CloudStorageIo.seek s (.int p) 2 =
      (.ok (max 0 ((c.length : Int) + p)).toNat,
       { s with offset := (max 0 ((c.length : Int) + p)).toNat })) ∧
    (s.remote = none → CloudStorageIo.seek s (.int p) 2 = (.error .notFound, s)) ∧
    (w ≠ 0 → w ≠ 1 → w ≠ 2 → CloudStorageIo.seek s (.int p) w = (.error .valueError, s)) ∧
    (CloudStorageIo.seek s .notAnInt w = (.error .typeError, s)) := by
  refine ⟨?_, ?_, ?_, ?_, ?_, ?_⟩
  · by_cases hp : p < 0 <;>
      simp [CloudStorageIo.seek, hf, StorageIOSeekable.seekOffset, hp]
  · simp [CloudStorageIo.seek, hf, StorageIOSeekable.seekOffset]
  · intro c hc
    simp [CloudStorageIo.seek, hf, StorageIOSeekable.seekOffset,
      CloudStorageIo.size, CloudStorageIo.get_size, hc]
  · intro hc
    simp [CloudStorageIo.seek, hf, StorageIOSeekable.seekOffset,
      CloudStorageIo.size, CloudStorageIo.get_size, hc]
  · intro h0 h1 h2
    simp [CloudStorageIo.seek, hf, StorageIOSeekable.seekOffset, h0, h1, h2]
  · simp [CloudStorageIo.seek, hf, StorageIOSeekable.seekOffset]

/-- A 100-byte remote object with the cursor at 5 and no mirror, for
exercising the seek specification. -/
def w8state : CloudState :=
  { freshState (some (List.replicate 100 0)) with closed := false, offset := 5 }

/-- Witness for the seek specification: seeking with whence 2 and pos -10 on
the 100-byte object sets the offset to 90. -/
theorem seek_non_mirrored_spec_witness :
    CloudStorageIo.seek w8state (.int (-10)) 2 =
      (.ok 90, { w8state with offset := 90 }) := by
  have h := (seek_non_mirrored_spec w8state (-10) 7 rfl).2.2.1
    (List.replicate 100 0) rfl
  exact h

/-- The corrected end-of-range computation of the remote-only read: when a
truthy byte count is requested the inclusive end is `start + count - 1`
(unclamped); otherwise it is `size - 1`. -/
def readEnd (fileSize start : Nat) (sz : Option Nat) : Nat :=
  match sz with
  | some n => if n ≠ 0 then start + n - 1 else fileSize - 1
  | none => fileSize - 1

/-- Claim C2, counterexample: reading 100 bytes at offset 0 from a 10-byte
remote object issues the ranged read `[0, 99]`, not `[0, min(10-1, 0+100-1)]
= [0, 9]` as the claim's `min` would require. -/
theorem read_range_end_not_clamped :
    (CloudStorageIo.read
      { freshState (some (List.replicate 10 7)) with
          closed := false, flags := { readable := true }, modeChars := some ['r'] }
      (some 100)).2.2 = some (0, 99) ∧
    ((99 : Nat) == min (10 - 1) (0 + 100 - 1)) = false :=
  ⟨rfl, rfl⟩

/-- Claim C2 as amended: a remote-only read fails with NotFound when the
object does not exist; returns empty on a zero-size object; returns empty
when the offset strictly exceeds the object's size; and otherwise issues
exactly one inclusive ranged read `[start, end]` with `end = start+size-1`
for a truthy requested size and `end = objectSize-1` otherwise (the end is
not clamped to the object's extent), returning the clipped bytes and
advancing the offset by the number of bytes returned. -/
theorem remote_only_read_spec (s : CloudState) (sz : Option Nat)
    (hf : s.fileIo = none) :
    (s.remote = none → CloudStorageIo.read s sz = (.error .notFound, s, none)) ∧
    (∀ c, s.remote = some c → c.length = 0 →
      CloudStorageIo.read s sz = (.ok [], s, none)) ∧
    (∀ c, s.remote = some c → 0 < c.length → c.length < s.offset →
      CloudStorageIo.read s sz = (.ok [], s, none)) ∧
    (∀ c, s.remote = some c → 0 < c.length → s.offset ≤ c.length →
      CloudStorageIo.read s sz =
        (.ok (CloudStorageIo.read_bytes s s.offset (readEnd c.length s.offset sz)),
         { s with offset := s.offset +
            (CloudStorageIo.read_bytes s s.offset (readEnd c.length s.offset sz)).length },
         some (s.offset, readEnd c.length s.offset sz))) := by
  refine ⟨?_, ?_, ?_, ?_⟩
  · intro hc
    simp [CloudStorageIo.read, hf, CloudStorageIo.remoteExists, hc]
  · intro c hc hlen
    simp [CloudStorageIo.read, hf, CloudStorageIo.remoteExists, hc, hlen]
  · intro c hc hpos hlt
    simp [CloudStorageIo.read, hf, CloudStorageIo.remoteExists, hc,
      Nat.pos_iff_ne_zero.mp hpos, hlt]
  · intro c hc hpos hle
    have hne : ¬ c.length = 0 := Nat.pos_iff_ne_zero.mp hpos
    have hnlt : ¬ c.length < s.offset := Nat.not_lt.mpr hle
    simp [CloudStorageIo.read, hf, CloudStorageIo.remoteExists, hc, hne, hnlt, readEnd]

/-- A 3-byte remote object opened read-only, no mirror yet, cursor at 0. -/
def w2state : CloudState :=
  { freshState (some [7, 7, 7]) with
      closed := false, flags := { readable := true }, modeChars := some ['r'] }

/-- Witness for the remote-only read specification: reading 2 bytes at offset
0 of a 3-byte object issues the ranged read `[0, 1]` and returns its bytes. -/
theorem remote_only_read_spec_witness :
    CloudStorageIo.read w2state (some 2) =
      (.ok (CloudStorageIo.read_bytes w2state w2state.offset
              (readEnd 3 w2state.offset (some 2))),
       { w2state with offset := w2state.offset +
          (CloudStorageIo.read_bytes w2state w2state.offset
              (readEnd 3 w2state.offset (some 2))).length },
       some (w2state.offset, readEnd 3 w2state.offset (some 2))) :=
  (remote_only_read_spec w2state (some 2) rfl).2.2.2 [7, 7, 7] rfl (by decide) (by decide)

/-- Append-mode session over an existing 3-byte object, after seeking back to
offset 0: the mode grants no read capability, yet no mirror exists. -/
def a5state : CloudState :=
  (CloudStorageIo.seek
    (CloudStorageIo.openHandle (freshState (some [1, 2, 3])) ['a'] true).2
    (.int 0) 0).2

/-- Read-only session over an existing 3-byte object (no read performed
yet). -/
def r5state : CloudState :=
  (CloudStorageIo.openHandle (freshState (some [1, 2, 3])) ['r'] true).2

/-- Claim C5, counterexample: in an append-mode (write-only) session with no
mirror, read() succeeds and returns the remote bytes instead of raising
UnsupportedOperation — the cloud read performs no capability check; and a
write in a read-only session does raise UnsupportedOperation but only after
materializing a mirror, so the failing call is not free of partial effect. -/
theorem read_without_capability_succeeds :
    a5state.flags.readable = false ∧
    (CloudStorageIo.read a5state none).1 = .ok [1, 2, 3] ∧
    r5state.fileIo = none ∧
    (CloudStorageIo.write r5state [9]).1 = .error .unsupportedOperation ∧
    ((CloudStorageIo.write r5state [9]).2.fileIo).isSome = true :=
  ⟨rfl, rfl, rfl, rfl, rfl⟩

/-- Claim C5 as amended: the base-class read/write assert the corresponding
capability and fail with UnsupportedOperation when it is absent; the cloud
class performs no capability check of its own — a mirrored read in a mode
without the read flag fails with UnsupportedOperation from the local handle
(no bytes consumed, no remote range issued, offset merely refreshed to the
local cursor — in particular open('w') then read fails as the claim says),
and a mirrored write without the writable flag fails likewise; but remote-only
reads are not gated (append-mode sessions can read, see the counterexample)
and a failing write has already materialized the mirror. -/
theorem capability_gating_amended (hs : HandleState) (s t : CloudState)
    (f g : LocalFile) (sz : Option Nat) (b : List Nat)
    (hbr : hs.flags.readable = false) (hbw : StorageIOBase.writable hs = false)
    (hf : s.fileIo = some f) (hr : f.readable = false)
    (ht : t.fileIo = some g) (hw : g.writable = false) (htc : t.closed = false) :
    StorageIOBase.read hs = .unsupportedOperation ∧
    StorageIOBase.write hs = .unsupportedOperation ∧
    CloudStorageIo.read s sz =
      (.error .unsupportedOperation, { s with offset := f.pos }, none) ∧
    CloudStorageIo.write t b =
      (.error .unsupportedOperation, { t with offset := g.pos }) := by
  refine ⟨?_, ?_, ?_, ?_⟩
  · simp [StorageIOBase.read, StorageIOBase.readable, hbr]
  · simp [StorageIOBase.write, hbw]
  · simp [CloudStorageIo.read, hf, hr]
  · simp [CloudStorageIo.write, htc, CloudStorageIo.localCopy, ht, hw]

/-- Plain-write session (mirror materialized eagerly by open, local handle
not readable). -/
def w5state : CloudState :=
  (CloudStorageIo.openHandle (freshState none) ['w'] true).2

/-- Read-only session whose mirror was just materialized by a failing write
(local handle not writable, cursor at 0). -/
def t5state : CloudState :=
  (CloudStorageIo.write r5state [9]).2

/-- Witness for the amended capability theorem: a handle opened 'w' then read
fails with UnsupportedOperation with the offset unchanged, and a mirrored
read-only handle rejects writes. -/
theorem capability_gating_amended_witness :
    StorageIOBase.read ⟨{}, false⟩ = .unsupportedOperation ∧
    StorageIOBase.write ⟨{}, false⟩ = .unsupportedOperation ∧
    CloudStorageIo.read w5state none =
      (.error .unsupportedOperation,
       { w5state with offset := (⟨0, false, true, false⟩ : LocalFile).pos }, none) ∧
    CloudStorageIo.write t5state [9] =
      (.error .unsupportedOperation,
       { t5state with offset := (⟨0, true, false, false⟩ : LocalFile).pos }) :=
  capability_gating_amended ⟨{}, false⟩ w5state t5state
    ⟨0, false, true, false⟩ ⟨0, true, false, false⟩ none [9]
    rfl rfl rfl rfl rfl rfl rfl

/-- Claim C6, counterexample: open('a') on a non-existent remote object
propagates NotFound from the end-of-object seek's size lookup; it does not
return normally with the offset at 0. -/
theorem open_append_nonexistent_raises :
    (CloudStorageIo.openHandle (freshState none) ['a'] true).1 = .error .notFound ∧
    ((CloudStorageIo.openHandle (freshState none) ['a'] true).1.isOk) = false :=
  ⟨rfl, rfl⟩

/-- Claim C6 as amended: opening a fresh handle in append mode seeks to
end-of-object before any write: for an existing remote object of size n the
offset becomes n (0 when the object is empty); for a non-existent object the
size lookup fails with NotFound and open raises instead of positioning at
offset 0. -/
theorem open_append_offset_amended (s : CloudState) (c : List Nat)
    (hcl : s.closed = true) (hfi : s.fileIo = none) (hm : s.modeChars = none) :
    (s.remote = some c →
      (CloudStorageIo.openHandle s ['a'] true).1 = .ok () ∧
      (CloudStorageIo.openHandle s ['a'] true).2.offset = c.length) ∧
    (s.remote = none →
      (CloudStorageIo.openHandle s ['a'] true).1 = .error .notFound) := by
  constructor
  · intro hr
    simp [CloudStorageIo.openHandle, hcl, hm, StorageIOBase.is_same_mode,
      StorageIOBase.set_mode, CloudStorageIo.seek, hfi,
      StorageIOSeekable.seekOffset, CloudStorageIo.size, CloudStorageIo.get_size, hr]
  · intro hr
    simp [CloudStorageIo.openHandle, hcl, hm, StorageIOBase.is_same_mode,
      StorageIOBase.set_mode, CloudStorageIo.seek, hfi,
      StorageIOSeekable.seekOffset, CloudStorageIo.size, CloudStorageIo.get_size, hr]

/-- Witness for the amended append-open theorem at a 100-byte object and at a
non-existent object. -/
theorem open_append_offset_amended_witness :
    (CloudStorageIo.openHandle (freshState (some (List.replicate 100 1))) ['a'] true).1
      = .ok () ∧
    (CloudStorageIo.openHandle (freshState (some (List.replicate 100 1))) ['a'] true).2.offset
      = (List.replicate 100 1).length :=
  (open_append_offset_amended (freshState (some (List.replicate 100 1)))
    (List.replicate 100 1) rfl rfl rfl).1 rfl

/-- One session operation performed between open and close: read, write or
seek. -/
inductive Op where
  | read : Option Nat → Op
  | write : List Nat → Op
  | seek : PyVal → Int → Op
deriving Repr, DecidableEq

/-- Apply one operation; returns the successor state and the remote range the
operation issued (`none` unless a remote ranged read happened). -/
def stepOp (s : CloudState) (op : Op) : CloudState × Option (Nat × Nat) :=
  match op with
  | .read sz => ((CloudStorageIo.read s sz).2.1, (CloudStorageIo.read s sz).2.2)
  | .write b => ((CloudStorageIo.write s b).2, none)
  | .seek p w => ((CloudStorageIo.seek s p w).2, none)

/-- Run a sequence of operations, collecting the remote range issued by each
one. -/
def runOps (s : CloudState) (ops : List Op) : CloudState × List (Option (Nat × Nat)) :=
  match ops with
  | [] => (s, [])
  | op :: rest =>
    ((runOps (stepOp s op).1 rest).1, (stepOp s op).2 :: (runOps (stepOp s op).1 rest).2)

theorem localCopy_ok_isSome (s s1 : CloudState)
    (h : CloudStorageIo.localCopy s = .ok s1) : s1.fileIo.isSome := by
  unfold CloudStorageIo.localCopy at h
  cases hfi : s.fileIo with
  | some f =>
    rw [hfi] at h
    cases h
    simp [hfi]
  | none =>
    rw [hfi] at h
    dsimp only at h
    split at h
    · exact absurd h (by simp)
    · cases h
      simp

theorem localCopy_of_isSome (s : CloudState) (f : LocalFile)
    (hf : s.fileIo = some f) : CloudStorageIo.localCopy s = .ok s := by
  simp [CloudStorageIo.localCopy, hf]

theorem write_ok_mirror (s : CloudState) (b : List Nat) (n : Nat)
    (hw : (CloudStorageIo.write s b).1 = .ok n) :
    ((CloudStorageIo.write s b).2).fileIo.isSome := by
  by_cases hc : s.closed
  · simp [CloudStorageIo.write, hc] at hw
  · cases hlc : CloudStorageIo.localCopy s with
    | error e => simp [CloudStorageIo.write, hc, hlc] at hw
    | ok s1 =>
      have h1 := localCopy_ok_isSome s s1 hlc
      obtain ⟨f, hf⟩ := Option.isSome_iff_exists.mp h1
      by_cases hfw : f.writable
      · simp [CloudStorageIo.write, hc, hlc, hf, hfw]
      · simp [CloudStorageIo.write, hc, hlc, hf, hfw] at hw

theorem step_preserves_mirror (s : CloudState) (op : Op)
    (h : s.fileIo.isSome) :
    (stepOp s op).1.fileIo.isSome ∧ (stepOp s op).2 = none := by
  obtain ⟨f, hf⟩ := Option.isSome_iff_exists.mp h
  cases op with
  | read sz =>
    simp only [stepOp, CloudStorageIo.read, hf]
    cases hr : f.readable <;> simp [hf]
  | write b =>
    refine ⟨?_, rfl⟩
    simp only [stepOp]
    by_cases hc : s.closed
    · simp [CloudStorageIo.write, hc, hf]
    · simp only [CloudStorageIo.write, hc, if_false, Bool.false_eq_true,
        localCopy_of_isSome s f hf, hf]
      cases hw : f.writable <;> simp [hf]
  | seek p w =>
    refine ⟨?_, rfl⟩
    simp only [stepOp, CloudStorageIo.seek, hf]
    cases p with
    | notAnInt => simp [hf]
    | int q =>
      by_cases h0 : w = 0
      · simp only [h0, if_true, if_pos rfl]
        by_cases hq : q < 0 <;> simp [hq, hf]
      · by_cases h1 : w = 1
        · simp only [h0, h1, if_false, if_true, if_pos rfl]
          by_cases hq : (f.pos : Int) + q < 0 <;> simp [h0, h1, hq, hf]
        · by_cases h2 : w = 2
          · simp only [h0, h1, h2, if_false, if_true, if_pos rfl]
            by_cases hq : ((s.tempOnDisk.getD []).length : Int) + q < 0 <;>
              simp [h0, h1, h2, hq, hf]
          · simp [h0, h1, h2, hf]

theorem runOps_mirror_no_remote (ops : List Op) : ∀ s : CloudState,
    s.fileIo.isSome →
    (runOps s ops).2.all Option.isNone ∧ (runOps s ops).1.fileIo.isSome := by
  induction ops with
  | nil => intro s h; simpa [runOps] using h
  | cons op rest ih =>
    intro s h
    obtain ⟨h1, h2⟩ := step_preserves_mirror s op h
    obtain ⟨h3, h4⟩ := ih _ h1
    simp [runOps, h2, h3, h4]

/-- Claim C7: once any write has occurred in a session (equivalently, once
the local mirror exists), no subsequent read in that session invokes a remote
ranged read: a write that returns a byte count leaves the handle mirrored,
and from any mirrored state every following read, write and seek is served by
the local mirror, issuing no remote range. -/
theorem write_then_no_remote_ranged_reads (s u : CloudState) (b : List Nat)
    (n : Nat) (ops : List Op)
    (hw : (CloudStorageIo.write s b).1 = .ok n) (hu : u.fileIo.isSome = true) :
    ((CloudStorageIo.write s b).2.fileIo.isSome = true) ∧
    ((runOps (CloudStorageIo.write s b).2 ops).2.all Option.isNone = true) ∧
    ((runOps u ops).2.all Option.isNone = true) := by
  have h1 := write_ok_mirror s b n hw
  exact ⟨h1, (runOps_mirror_no_remote ops _ h1).1,
    (runOps_mirror_no_remote ops u hu).1⟩

/-- Update-mode session over a 3-byte object after a remote-only read (the
read itself did issue a ranged read; the claim is about what happens after
the first write). -/
def w7state : CloudState :=
  (CloudStorageIo.read
    (CloudStorageIo.openHandle (freshState (some [1, 2, 3])) ['r', '+'] true).2
    none).2.1

/-- Witness for C7: after remote-read-then-write (a write that succeeded with
1 byte), the subsequent reads and seeks of the session issue no remote ranged
read, and the same holds from the mirrored read-only state. -/
theorem write_then_no_remote_ranged_reads_witness :
    ((CloudStorageIo.write w7state [9]).2.fileIo.isSome = true) ∧
    ((runOps (CloudStorageIo.write w7state [9]).2
        [.read none, .seek (.int 0) 0, .read (some 2)]).2.all Option.isNone = true) ∧
    ((runOps t5state
        [.read none, .seek (.int 0) 0, .read (some 2)]).2.all Option.isNone = true) :=
  write_then_no_remote_ranged_reads w7state t5state [9] 1
    [.read none, .seek (.int 0) 0, .read (some 2)] rfl rfl

/-- A plain-write session in which `[5]` has been written to the mirror. -/
def c1state : CloudState :=
  (CloudStorageIo.write
    (CloudStorageIo.openHandle (freshState none) ['w'] true).2 [5]).2

/-- Claim C1 (code bug): evaluation at the failing input.  The mirror's temp
file holds the written byte; when the upload inside close() raises, close
propagates the error before `__rm_temp` runs, leaving the temp file on disk
(the claim requires it gone regardless of upload outcome); when the upload
succeeds the temp file is removed; and `local()` is a no-op once the mirror
exists, so the temp file is created at most once per session. -/
theorem close_upload_failure_leaks_temp :
    c1state.tempOnDisk = some [5] ∧
    (CloudStorageIo.close c1state false).1 = .error .uploadFailed ∧
    (CloudStorageIo.close c1state false).2.tempOnDisk = some [5] ∧
    (CloudStorageIo.close c1state true).2.tempOnDisk = none ∧
    CloudStorageIo.localCopy c1state = .ok c1state :=
  ⟨rfl, rfl, rfl, rfl, rfl⟩

/-- A remote-only read session: opened 'r', no mirror ever materialized. -/
def c4state : CloudState :=
  (CloudStorageIo.openHandle (freshState (some [1, 2, 3])) ['r'] true).2

/-- Claim C4 (code bug): evaluation at the failing input.  The closed flag is
true on a fresh handle, but close() on a session that never materialized a
mirror returns normally without setting it (the assignment sits inside the
`if self.temp_path:` branch), so the handle still reports not-closed. -/
theorem close_without_mirror_not_marked_closed :
    (freshState (some [1, 2, 3])).closed = true ∧
    c4state.closed = false ∧
    (CloudStorageIo.close c4state true).1 = .ok () ∧
    (CloudStorageIo.close c4state true).2.closed = false :=
  ⟨rfl, rfl, rfl, rfl⟩

/-- A plain-write session over a 2-byte object, with the mirror materialized
by open. -/
def c9state : CloudState :=
  (CloudStorageIo.openHandle (freshState (some [1, 2])) ['w'] true).2

/-- Claim C9 (code bug): evaluation at the failing input.  With a mirror
materialized, the size accessor raises TypeError (`os.fstat` receives the
un-called `fileno` method rather than a descriptor) instead of returning the
mirror's size; without a mirror it does return the remote object's size. -/
theorem size_mirrored_raises_type_error :
    c9state.fileIo.isSome = true ∧
    CloudStorageIo.size c9state = .error .typeError ∧
    CloudStorageIo.size (freshState (some [1, 2])) = .ok 2 :=
  ⟨rfl, rfl, rfl⟩
